import Mathlib

/-!
Verification development for the Ibali Farm Platform core
(yield predictor, farm chatbot, sensor threshold monitor, alert store).

The Python sources are shallowly embedded as executable Lean definitions:

* `src/ai_models.py`   : `YieldPredictor.prepare_features`, `YieldPredictor.train_model`,
  `YieldPredictor.predict_future_yields`, `FarmChatbot._check_knowledge_base`,
  `FarmChatbot.get_response`.
* `src/firebase_service.py` : `FirebaseService._check_sensor_alerts`,
  `FirebaseService.create_alert`, `FirebaseService.get_alerts`,
  `FirebaseService.mark_alert_read`, `FirebaseService.resolve_alert`.

Modelling conventions:

* Python floats are modelled as rationals; `datetime` values are modelled as a
  day number (days since 1970-01-01, an integer), since the code only ever adds
  whole-day `timedelta` offsets and reads the `.month` field.
* The sklearn regressor, `train_test_split` and `RandomForestRegressor.fit` are
  external library code (not part of this repository); the composite
  "split the prepared batch, fit the ensemble, log the MAE" step is abstracted
  as an oracle argument `rf_fit` producing the fitted regression function, and a
  boolean `lib_ok` models the possibility that one of those library calls raises
  (the surrounding `try/except` then returns `False` with the state untouched).
* The Firebase realtime store is modelled as an in-memory association list with
  a monotone integer key counter standing for the push keys, which Firebase
  generates in increasing key order.
-/

namespace Ibali

/-! ## Calendar arithmetic

The code calls `datetime.now() + timedelta(days=30 * i)` and then reads
`date.month`.  Days are modelled as integers (days since 1970-01-01) and the
month is recovered with the standard civil-calendar conversion.
-/

/-- Convert a day number (days since 1970-01-01) to a civil date
`(year, month, day)` via the standard Gregorian algorithm. -/
def civilFromDays (z : ℤ) : ℤ × ℕ × ℕ :=
  let zz := z + 719468
  let era := zz.fdiv 146097
  let doe := (zz - era * 146097).toNat
  let yoe := (doe - doe / 1460 + doe / 36524 - doe / 146096) / 365
  let y : ℤ := (yoe : ℤ) + era * 400
  let doy := doe - (365 * yoe + yoe / 4 - yoe / 100)
  let mp := (5 * doy + 2) / 153
  let d := doy - (153 * mp + 2) / 5 + 1
  let m : ℕ := if mp < 10 then mp + 3 else mp - 9
  (if m ≤ 2 then y + 1 else y, m, d)

/-- Convert a civil date to its day number (inverse of `civilFromDays`). -/
def daysFromCivil (y : ℤ) (m d : ℕ) : ℤ :=
  let yy := if m ≤ 2 then y - 1 else y
  let era := yy.fdiv 400
  let yoe := (yy - era * 400).toNat
  let mp := if 2 < m then m - 3 else m + 9
  let doy := (153 * mp + 2) / 5 + d - 1
  let doe := yoe * 365 + yoe / 4 - yoe / 100 + doy
  era * 146097 + (doe : ℤ) - 719468

/-- Month (1..12) of a day number; models the `.month` attribute of a
Python `datetime`. -/
def monthOfDay (z : ℤ) : ℕ := (civilFromDays z).2.1

/-! ## Python string primitives used by the sources -/

/-- Python substring containment, `needle in hay` on strings. -/
def pyIn (needle hay : String) : Bool := decide (needle.data <:+: hay.data)

/-- Python `str.lower()` (the sources only feed it ASCII text). -/
def lowerStr (s : String) : String := String.mk (s.data.map Char.toLower)

/-- Helper for `pyTitle`: the boolean argument records whether the previous
character was alphabetic. -/
def pyTitleAux : Bool → List Char → List Char
  | _, [] => []
  | prevAlpha, c :: cs =>
    (if c.isAlpha then (if prevAlpha then c.toLower else c.toUpper) else c)
      :: pyTitleAux c.isAlpha cs

/-- Python `str.title()`: uppercase every alphabetic character that does not
follow an alphabetic character, lowercase the rest. -/
def pyTitle (s : String) : String := String.mk (pyTitleAux false s.data)

/-- Python `str.replace(a, b)` for single characters. -/
def pyReplace (s : String) (a b : Char) : String :=
  String.mk (s.data.map (fun c => if c = a then b else c))

/-- Helper for `pySplitW`: splits on whitespace, accumulating the current word
in reverse. -/
def splitWsAux : List Char → List Char → List (List Char)
  | [], acc => if acc.isEmpty then [] else [acc.reverse]
  | c :: cs, acc =>
    if c.isWhitespace then
      (if acc.isEmpty then splitWsAux cs [] else acc.reverse :: splitWsAux cs [])
    else
      splitWsAux cs (c :: acc)

/-- Python `str.split()` with no argument: split on whitespace runs, dropping
empty tokens. -/
def pySplitW (s : String) : List String := (splitWsAux s.data []).map String.mk

/-! ## Yield predictor (`src/ai_models.py`, class `YieldPredictor`)

A dataframe row of the historical yield data.  The raw columns are `ds`
(period timestamp, here a day number), `y` (target, may be missing),
`crop_type`, `weather_condition` and `soil_quality_score`; the three derived
columns added in place by `prepare_features` start out as `none`.
-/

structure Row where
  ds : ℤ
  y : Option ℚ
  crop_type : String
  weather_condition : String
  soil_quality_score : Option ℚ
  month : Option ℕ
  crop_type_encoded : Option ℕ
  weather_score : Option ℚ
deriving Repr

/-- The fixed-order numeric feature vector consumed by the regressor
(`feature_columns = [month, crop_type_encoded, weather_score,
soil_quality_score]`). -/
structure Features where
  month : ℚ
  crop_type_encoded : ℚ
  weather_score : ℚ
  soil_quality_score : ℚ
deriving Repr

/-- One forecast row produced by `predict_future_yields`. -/
structure ForecastPoint where
  date : ℤ
  predicted_yield : ℚ
  confidence : ℚ
deriving Repr

/-- The estimator state: the current regression function of `self.model`
(abstract, since the ensemble internals are external library code) and the
`self.is_trained` flag. -/
structure YieldPredictor where
  model : Features → ℚ
  is_trained : Bool

/-- The constructor `YieldPredictor.__init__`: a fresh (unfitted) regressor
and `is_trained = False`. -/
def yield_predictor_init (model0 : Features → ℚ) : YieldPredictor :=
  { model := model0, is_trained := false }

/-- The fixed weather-condition table of `prepare_features`. -/
def weather_mapping : List (String × ℚ) :=
  [("sunny", 9/10), ("partly_cloudy", 7/10), ("cloudy", 1/2),
   ("rainy", 3/10), ("stormy", 1/10), ("drought", 1/10)]

/-- First-seen-order distinct values, the order produced by
`pandas.Series.unique` and used by the crop encoding. -/
def unique_first_seen (seen : List String) : List String → List String
  | [] => []
  | c :: cs =>
    if c ∈ seen then unique_first_seen seen cs
    else c :: unique_first_seen (c :: seen) cs

/-- The body of `YieldPredictor.prepare_features`: on a nonempty batch it adds
the `month` column (from `ds`), the positional crop encoding, the weather
score (table lookup with 0.5 default via `fillna`), and imputes missing soil
scores with the batch mean of the present ones (if every soil score is
missing, `fillna(mean)` leaves them missing).  The row count is unchanged. -/
def prepare_features (df : List Row) : List Row :=
  if df.isEmpty then []
  else
    let crop_types := unique_first_seen [] (df.map (fun r => r.crop_type))
    let soil_vals := df.filterMap (fun r => r.soil_quality_score)
    let soil_mean : Option ℚ :=
      if soil_vals.isEmpty then none else some (soil_vals.sum / soil_vals.length)
    df.map (fun r =>
      { r with
        month := some (monthOfDay r.ds),
        crop_type_encoded := some (crop_types.indexOf r.crop_type),
        weather_score := some ((weather_mapping.lookup r.weather_condition).getD (1/2)),
        soil_quality_score :=
          match r.soil_quality_score with
          | some v => some v
          | none => soil_mean })

/-- Extraction of `X = df[self.feature_columns].fillna(0)` for one prepared
row: every still-missing value is replaced with 0. -/
def features_of (r : Row) : Features :=
  { month := ((r.month.getD 0 : ℕ) : ℚ),
    crop_type_encoded := ((r.crop_type_encoded.getD 0 : ℕ) : ℚ),
    weather_score := r.weather_score.getD 0,
    soil_quality_score := r.soil_quality_score.getD 0 }

/-- The body of `YieldPredictor.train_model`.  `rf_fit` abstracts the external
`train_test_split` / `RandomForestRegressor.fit` / MAE-logging sequence (it
returns the fitted regression function); `lib_ok = false` models one of those
library calls raising, in which case the `except` branch returns `False`.
The source applies `prepare_features` to `historical_data.copy()`, so the
caller-visible batch — returned as the third component — is the unchanged
input list on every path. -/
def train_model (rf_fit : List (Features × ℚ) → Features → ℚ) (lib_ok : Bool)
    (self : YieldPredictor) (historical_data : List Row) :
    YieldPredictor × Bool × List Row :=
  if historical_data.isEmpty then (self, false, historical_data)
  else if (prepare_features historical_data).isEmpty
      ∨ (prepare_features historical_data).length < 10 then
    (self, false, historical_data)
  else if lib_ok then
    ({ self with
        model := rf_fit ((prepare_features historical_data).map
          (fun r => (features_of r, r.y.getD 0))),
        is_trained := true },
      true, historical_data)
  else (self, false, historical_data)

/-- The prediction features built by `predict_future_yields` for one future
date: the month of that date, the hardcoded default crop index 0, the
hardcoded average weather score 0.7 and soil score 0.75. -/
def future_features_at (date : ℤ) : Features :=
  { month := (monthOfDay date : ℚ),
    crop_type_encoded := 0,
    weather_score := 7/10,
    soil_quality_score := 3/4 }

/-- The body of `YieldPredictor.predict_future_yields`: empty result when
untrained; otherwise one point per step `i = 1..months_ahead` at
`now + 30 * i` days, with the prediction floored at zero and the constant
placeholder confidence 0.8. -/
def predict_future_yields (self : YieldPredictor) (now : ℤ) (months_ahead : ℕ) :
    List ForecastPoint :=
  if ¬ self.is_trained then []
  else
    let future_dates := (List.range months_ahead).map (fun (i : ℕ) => now + 30 * ((i : ℤ) + 1))
    future_dates.map (fun date =>
      { date := date,
        predicted_yield := max 0 (self.model (future_features_at date)),
        confidence := 4/5 })

/-! ## Farm chatbot (`src/ai_models.py`, class `FarmChatbot`) -/

/-- The static nested `knowledge_base` dictionary, in insertion order
(Python dictionaries iterate in insertion order). -/
def knowledge_base : List (String × List (String × String)) :=
  [("crop_care",
    [("corn", "Corn requires well-drained soil, regular watering, and nitrogen-rich fertilizer. Plant after last frost."),
     ("wheat", "Wheat grows best in cool, moist conditions. Requires good drainage and moderate fertilization."),
     ("soybeans", "Soybeans fix their own nitrogen. Need warm soil and moderate water. Avoid overwatering.")]),
   ("livestock",
    [("cattle", "Cattle need fresh water, quality pasture, and regular health checks. Rotate grazing areas."),
     ("chickens", "Chickens need secure housing, balanced feed, and clean water. Collect eggs daily."),
     ("pigs", "Pigs require shelter, balanced diet, and clean environment. Monitor for diseases.")]),
   ("pest_control",
    [("aphids", "Use ladybugs, neem oil, or insecticidal soap. Remove affected leaves."),
     ("caterpillars", "Hand-pick or use Bt (Bacillus thuringiensis) spray. Check plants regularly."),
     ("fungal_diseases", "Improve air circulation, avoid overhead watering, use fungicides if needed.")])]

/-- The match test of `_check_knowledge_base`:
`key in message or any(word in message for word in key.split())`
(both tests are Python substring containment). -/
def kb_match (key message : String) : Bool :=
  pyIn key message || (pySplitW key).any (fun word => pyIn word message)

/-- The reply format of `_check_knowledge_base`:
the f-string `**{key.title()} Care Tips:**` followed by a blank line and the
advice text. -/
def kb_format (key response : String) : String :=
  "**" ++ pyTitle key ++ " Care Tips:**\n\n" ++ response

/-- Inner loop of `_check_knowledge_base` over the items of one category. -/
def kb_scan_items (message : String) : List (String × String) → Option String
  | [] => none
  | (key, response) :: rest =>
    if kb_match key message then some (kb_format key response)
    else kb_scan_items message rest

/-- Outer loop of `_check_knowledge_base` over the categories. -/
def kb_scan (message : String) : List (String × List (String × String)) → Option String
  | [] => none
  | (_, items) :: rest =>
    match kb_scan_items message items with
    | some r => some r
    | none => kb_scan message rest

/-- The body of `FarmChatbot._check_knowledge_base` (its argument is already
lowercased by the caller). -/
def check_knowledge_base (message : String) : Option String :=
  kb_scan message knowledge_base

/-- The three canned responses of `_get_fallback_response`. -/
def fallback_responses : List String :=
  ["That\x27s a great question about farming! I\x27d recommend checking with your local agricultural extension office for specific advice.",
   "For detailed farming guidance, consider consulting agricultural experts in your area or checking reputable farming resources online.",
   "I understand you\x27re looking for farming advice. The dashboard data might have relevant insights, or you could consult with agricultural specialists."]

/-- The body of `FarmChatbot.get_response`: knowledge base first on the
lowercased message; otherwise the external completion call when a client is
configured (abstracted as the `client` function, which already contains its
own internal fallback on API errors); otherwise one of the three canned
responses, the random draw of `np.random.choice` abstracted as `pick`. -/
def get_response (client : Option (String → Option String → String)) (pick : Fin 3)
    (user_message : String) (context_data : Option String) : String :=
  match check_knowledge_base (lowerStr user_message) with
  | some local_response => local_response
  | none =>
    match client with
    | some f => f user_message context_data
    | none => fallback_responses.get ⟨pick.val, pick.isLt⟩

/-! ## Alert store (`src/firebase_service.py`)

The Firebase alerts collection is modelled as an association list from push
keys (monotone integers, as Firebase push keys are generated in increasing
key order) to alert records, plus the next fresh key.
-/

/-- One alert record, the dictionary written by `create_alert` (the
`resolution_note` and `resolved_at` keys only appear after `resolve_alert`). -/
structure Alert where
  title : String
  message : String
  priority : String
  source : Option String
  timestamp : ℕ
  read : Bool
  resolved : Bool
  resolution_note : Option String
  resolved_at : Option ℕ

/-- The alerts collection: the next push key and the key-ordered entries. -/
structure AlertStore where
  next_id : ℕ
  alerts : List (ℕ × Alert)

/-- A store is well formed when every stored key is below the next fresh
key; `create_alert` preserves this and Firebase push keys guarantee it. -/
def store_wf (s : AlertStore) : Prop := ∀ kv ∈ s.alerts, kv.1 < s.next_id

/-- The body of `FirebaseService.create_alert`: push a record with
`read = False`, `resolved = False` and the creation timestamp, returning the
generated key.  The push notification sent for high priority goes to an
external messaging service and does not touch the store. -/
def create_alert (now : ℕ) (title message priority : String) (source : Option String)
    (store : AlertStore) : ℕ × AlertStore :=
  let alert_data : Alert :=
    { title := title, message := message, priority := priority, source := source,
      timestamp := now, read := false, resolved := false,
      resolution_note := none, resolved_at := none }
  (store.next_id,
   { next_id := store.next_id + 1,
     alerts := store.alerts ++ [(store.next_id, alert_data)] })

/-- Retrieval of a single alert by key, the Firebase
`child('alerts').child(alert_id).get()` read used when a caller follows the
key returned by `create_alert`. -/
def get_alert (store : AlertStore) (alert_id : ℕ) : Option Alert :=
  (store.alerts.find? (fun kv => kv.1 == alert_id)).map (fun kv => kv.2)

/-- The Firebase primitive `ref.child(alert_id).update(fields)`: merge the
given field changes into the alert stored under the key.  (On a key that was
never allocated the Firebase update would create a partial record; the
theorems below only address keys returned by `create_alert`, which exist.) -/
def update_alert (f : Alert → Alert) (alert_id : ℕ) (store : AlertStore) : AlertStore :=
  { store with
      alerts := store.alerts.map (fun kv =>
        if kv.1 == alert_id then (kv.1, f kv.2) else kv) }

/-- The body of `FirebaseService.mark_alert_read`: `update({'read': True})` on
the addressed alert. -/
def mark_alert_read (store : AlertStore) (alert_id : ℕ) : AlertStore × Bool :=
  (update_alert (fun a => { a with read := true }) alert_id store, true)

/-- The body of `FirebaseService.resolve_alert`: sets `resolved`, a fresh
`resolved_at` timestamp and `read = True`; the `resolution_note` key is only
included when the note argument is truthy (so `None` and the empty string
leave any previous note in place). -/
def resolve_alert (now : ℕ) (store : AlertStore) (alert_id : ℕ)
    (resolution_note : Option String) : AlertStore × Bool :=
  (update_alert (fun a =>
      { a with
          resolved := true, resolved_at := some now, read := true,
          resolution_note :=
            match resolution_note with
            | some n => if n = "" then a.resolution_note else some n
            | none => a.resolution_note })
    alert_id store, true)

/-- The body of `FirebaseService.get_alerts`: with `unread_only` the Firebase
query `order_by_child('read').equal_to(False).limit_to_last(limit)` keeps the
last `limit` unread entries in key order (all surviving entries share
`read = False`, so the child ordering degenerates to key order); otherwise
`order_by_key().limit_to_last(limit)` keeps the last `limit` entries.  The
result is then sorted by timestamp, newest first. -/
def get_alerts (store : AlertStore) (unread_only : Bool) (limit : ℕ) :
    List (ℕ × Alert) :=
  let selected :=
    if unread_only then
      let l := store.alerts.filter (fun kv => kv.2.read == false)
      l.drop (l.length - limit)
    else
      store.alerts.drop (store.alerts.length - limit)
  selected.mergeSort (fun a b => decide (b.2.timestamp ≤ a.2.timestamp))

/-! ## Sensor threshold monitor (`src/firebase_service.py`) -/

/-- The static `alert_thresholds` table of `_check_sensor_alerts`, as
`(metric, (min, max))` pairs. -/
def alert_thresholds : List (String × ℚ × ℚ) :=
  [("soil_moisture", 20, 80), ("temperature", 5, 35),
   ("humidity", 30, 90), ("ph_level", 6, 15/2)]

/-- The body of `FirebaseService._check_sensor_alerts`: for a metric in the
threshold table, a value strictly below the minimum creates one high-priority
alert titled with the f-string
`Low {sensor_type.replace('_', ' ').title()}`, a value strictly above the
maximum one alert titled `High ...`; otherwise, and for unknown metrics,
nothing is created. -/
def check_sensor_alerts (now : ℕ) (sensor_id sensor_type : String) (value : ℚ)
    (store : AlertStore) : AlertStore :=
  match alert_thresholds.lookup sensor_type with
  | none => store
  | some (tmin, tmax) =>
    if value < tmin then
      (create_alert now ("Low " ++ pyTitle (pyReplace sensor_type '_' ' '))
        ("Sensor " ++ sensor_id ++ ": " ++ sensor_type ++ " is " ++ toString value ++
          " (below minimum " ++ toString tmin ++ ")")
        "high" (some sensor_id) store).2
    else if value > tmax then
      (create_alert now ("High " ++ pyTitle (pyReplace sensor_type '_' ' '))
        ("Sensor " ++ sensor_id ++ ": " ++ sensor_type ++ " is " ++ toString value ++
          " (above maximum " ++ toString tmax ++ ")")
        "high" (some sensor_id) store).2
    else store

/-! ## Specification-side definitions used for refinement comparisons -/

/-- Modelled from the spec: a word is a standalone word of a message when it
occurs as one of the whitespace-separated words of the message (not merely as
a substring inside another word). -/
def standalone_word (word message : String) : Bool :=
  (pySplitW message).contains word

/-- Modelled from the spec: the matching rule claimed for the responder — the
keyword occurs as a substring of the message, or some individual word of the
keyword occurs as a standalone word of the message. -/
def spec_kb_match (key message : String) : Bool :=
  pyIn key message || (pySplitW key).any (fun word => standalone_word word message)

/-- The knowledge base flattened in insertion order. -/
def kb_flat : List (String × String) := knowledge_base.flatMap (fun c => c.2)

/-- Modelled from the spec: return the advice of the first keyword of the
table (in insertion order) that matches under `spec_kb_match`. -/
def spec_kb_lookup (message : String) : Option String :=
  (kb_flat.find? (fun kv => spec_kb_match kv.1 message)).map
    (fun kv => kb_format kv.1 kv.2)

/-! ## Helper lemmas about the yield predictor -/

/-- Feature preparation never adds or drops rows. -/
theorem prepare_features_length (df : List Row) :
    (prepare_features df).length = df.length := by
  unfold prepare_features
  split
  · next h => simp [List.isEmpty_iff.mp h]
  · simp

/-- A fit call that reports success has flipped the trained flag. -/
theorem train_model_success_trained (rf_fit : List (Features × ℚ) → Features → ℚ)
    (lib_ok : Bool) (self self2 : YieldPredictor) (hd hd2 : List Row)
    (h : train_model rf_fit lib_ok self hd = (self2, true, hd2)) :
    self2.is_trained = true := by
  unfold train_model at h
  split_ifs at h <;> simp only [Prod.mk.injEq] at h
  · cases h.2.1
  · cases h.2.1
  · rw [← h.1]
  · cases h.2.1

/-! ## Claim theorems for the yield predictor -/

/-- C2: on a batch that is empty or has fewer than 10 rows after feature
preparation, `train_model` returns the failure flag `False` (it does not
raise), and the estimator state — in particular `is_trained` — is left
exactly as it was. -/
theorem train_model_insufficient (rf_fit : List (Features × ℚ) → Features → ℚ)
    (lib_ok : Bool) (self : YieldPredictor) (historical_data : List Row)
    (h : (prepare_features historical_data).length < 10) :
    train_model rf_fit lib_ok self historical_data = (self, false, historical_data) := by
  unfold train_model
  split_ifs with h1 h2 h3
  · rfl
  · rfl
  · exact absurd (Or.inr h) h2
  · exact absurd (Or.inr h) h2

/-- Sample observation row used by the concrete witnesses below. -/
def sample_row (d : ℤ) : Row :=
  { ds := d, y := some 1, crop_type := "maize", weather_condition := "sunny",
    soil_quality_score := some 1, month := none, crop_type_encoded := none,
    weather_score := none }

/-- A sample batch of `k` observation rows. -/
def sample_batch (k : ℕ) : List Row := (List.range k).map (fun i => sample_row i)

/-- Witness for C2 at a concrete 3-row batch. -/
theorem train_model_insufficient_witness :
    (prepare_features (sample_batch 3)).length < 10 ∧
    train_model (fun _ _ => 1) true (yield_predictor_init (fun _ => 0)) (sample_batch 3) =
      (yield_predictor_init (fun _ => 0), false, sample_batch 3) :=
  ⟨by decide, train_model_insufficient _ _ _ _ (by decide)⟩

/-- C9: `train_model` never mutates the rows or columns of the batch the
caller passed in, on every path (success, short-circuit failure or library
failure): the caller-visible batch after the call is the original list,
because `prepare_features` is applied to `historical_data.copy()` only. -/
theorem train_model_leaves_batch (rf_fit : List (Features × ℚ) → Features → ℚ)
    (lib_ok : Bool) (self : YieldPredictor) (historical_data : List Row) :
    (train_model rf_fit lib_ok self historical_data).2.2 = historical_data := by
  unfold train_model
  split_ifs <;> rfl

/-- C10: once trained, always trained — every `train_model` call (including
empty-batch, short-batch and library-failure calls) leaves `is_trained` true
if it was true before; `predict_future_yields` is a pure read of the state
(its type in this embedding returns no state at all). -/
theorem train_model_monotone_trained (rf_fit : List (Features × ℚ) → Features → ℚ)
    (lib_ok : Bool) (self : YieldPredictor) (historical_data : List Row)
    (h : self.is_trained = true) :
    (train_model rf_fit lib_ok self historical_data).1.is_trained = true := by
  unfold train_model
  split_ifs <;> simp [h]

/-- Witness for C10: a trained estimator stays trained across a failing fit
call on an under-sized batch. -/
theorem train_model_monotone_trained_witness :
    ({ model := fun _ => 0, is_trained := true } : YieldPredictor).is_trained = true ∧
    (train_model (fun _ _ => 1) false { model := fun _ => 0, is_trained := true }
        []).1.is_trained = true :=
  ⟨rfl, train_model_monotone_trained _ _ _ _ rfl⟩

/-- C1: after a successful fit on a batch with at least 10 prepared rows,
`predict_future_yields` for `n ≥ 1` returns exactly `n` points, the point of
step `i` (0-based, so step `k = i + 1`) dated `now + 30 * k` days, every
confidence exactly 0.8, every predicted value nonnegative, and the dates
strictly increasing in order. -/
theorem train_then_predict (rf_fit : List (Features × ℚ) → Features → ℚ)
    (lib_ok : Bool) (self self2 : YieldPredictor) (historical_data : List Row)
    (now : ℤ) (n : ℕ)
    (hrows : 10 ≤ (prepare_features historical_data).length)
    (hfit : train_model rf_fit lib_ok self historical_data = (self2, true, historical_data))
    (hn : 1 ≤ n) :
    (predict_future_yields self2 now n).length = n ∧
    (predict_future_yields self2 now n).map (fun pt => pt.date) =
      (List.range n).map (fun (i : ℕ) => now + 30 * ((i : ℤ) + 1)) ∧
    (∀ pt ∈ predict_future_yields self2 now n,
      pt.confidence = 4/5 ∧ 0 ≤ pt.predicted_yield) ∧
    ((predict_future_yields self2 now n).map (fun pt => pt.date)).Pairwise
      (fun a b => a < b) := by
  have htr : self2.is_trained = true :=
    train_model_success_trained rf_fit lib_ok self self2 historical_data historical_data hfit
  have hnot : ¬ ¬ (self2.is_trained = true) := by simp [htr]
  have hdates : (predict_future_yields self2 now n).map (fun pt => pt.date) =
      (List.range n).map (fun (i : ℕ) => now + 30 * ((i : ℤ) + 1)) := by
    unfold predict_future_yields
    rw [if_neg hnot, List.map_map, List.map_map]
    rfl
  refine ⟨?_, hdates, ?_, ?_⟩
  · unfold predict_future_yields
    rw [if_neg hnot]
    simp only [List.length_map, List.length_range]
  · intro pt hpt
    unfold predict_future_yields at hpt
    rw [if_neg hnot, List.map_map] at hpt
    obtain ⟨i, _, rfl⟩ := List.mem_map.mp hpt
    exact ⟨rfl, le_max_left 0 _⟩
  · rw [hdates]
    refine List.Pairwise.map _ ?_ (List.pairwise_lt_range n)
    intro a b hab
    omega

/-- Witness for C1 at a concrete 10-row batch and a 2-step forecast. -/
theorem train_then_predict_witness :
    10 ≤ (prepare_features (sample_batch 10)).length ∧
    (1 : ℕ) ≤ 2 ∧
    (predict_future_yields
        (train_model (fun _ _ => 1) true (yield_predictor_init (fun _ => 0))
          (sample_batch 10)).1 0 2).length = 2 :=
  ⟨by decide, by decide,
    (train_then_predict (fun _ _ => 1) true (yield_predictor_init (fun _ => 0))
      ((train_model (fun _ _ => 1) true (yield_predictor_init (fun _ => 0)) (sample_batch 10)).1)
      (sample_batch 10) 0 2 (by decide) rfl (by decide)).1⟩

/-- C6 counterexample: the features of a future period use the month of that
future period, not the month at call time.  Calling from 2026-01-15 with a
regressor that returns the month feature itself, the single forecast point
(dated 30 days later, in February) carries predicted value 2, while the month
at call time is 1. -/
theorem predict_uses_future_month_cex :
    (predict_future_yields { model := fun f => f.month, is_trained := true }
        (daysFromCivil 2026 1 15) 1).map (fun pt => pt.predicted_yield) = [2] ∧
    (monthOfDay (daysFromCivil 2026 1 15) : ℚ) = 1 ∧ (2 : ℚ) ≠ 1 :=
  ⟨by decide, by decide, by decide⟩

/-- C6 as amended: when trained, `predict_future_yields` builds the feature
vector of the period at step `i + 1` from the month of that period itself
(`now + 30 * (i + 1)` days), the hardcoded crop index 0, weather score 0.7
and soil score 0.75. -/
theorem predict_period_features (self : YieldPredictor) (now : ℤ) (n : ℕ)
    (h : self.is_trained = true) :
    (∀ date : ℤ, future_features_at date =
       { month := (monthOfDay date : ℚ), crop_type_encoded := 0,
         weather_score := 7/10, soil_quality_score := 3/4 }) ∧
    predict_future_yields self now n = (List.range n).map (fun (i : ℕ) =>
       { date := now + 30 * ((i : ℤ) + 1),
         predicted_yield := max 0 (self.model (future_features_at (now + 30 * ((i : ℤ) + 1)))),
         confidence := 4/5 }) := by
  refine ⟨fun date => rfl, ?_⟩
  unfold predict_future_yields
  rw [if_neg (by simp [h] : ¬ ¬ (self.is_trained = true)), List.map_map]
  rfl

/-- Witness for the amended C6 at a concrete trained estimator. -/
theorem predict_period_features_witness :
    ({ model := fun _ => 1, is_trained := true } : YieldPredictor).is_trained = true ∧
    predict_future_yields { model := fun _ => 1, is_trained := true } 0 1 =
      (List.range 1).map (fun (i : ℕ) =>
        { date := (0 : ℤ) + 30 * ((i : ℤ) + 1),
          predicted_yield := max 0 ((fun _ => (1 : ℚ)) (future_features_at ((0 : ℤ) + 30 * ((i : ℤ) + 1)))),
          confidence := 4/5 }) :=
  ⟨rfl, (predict_period_features { model := fun _ => 1, is_trained := true } 0 1 rfl).2⟩

/-! ## Helper lemmas about the chatbot keyword matching -/

/-- Every word produced by the whitespace splitter is a contiguous segment of
the splitter input (prefixed by the reversed accumulator). -/
theorem splitWsAux_infix (cs : List Char) :
    ∀ (acc w : List Char), w ∈ splitWsAux cs acc →
      ∃ p q, p ++ w ++ q = acc.reverse ++ cs := by
  induction cs with
  | nil =>
    intro acc w h
    unfold splitWsAux at h
    split at h
    · exact absurd h (List.not_mem_nil w)
    · rw [List.mem_singleton.mp h]
      exact ⟨[], [], by simp⟩
  | cons c cs ih =>
    intro acc w h
    unfold splitWsAux at h
    by_cases hw : c.isWhitespace
    · rw [if_pos hw] at h
      by_cases ha : acc.isEmpty
      · rw [if_pos ha] at h
        obtain ⟨p, q, hpq⟩ := ih [] w h
        simp only [List.reverse_nil, List.nil_append] at hpq
        refine ⟨acc.reverse ++ c :: p, q, ?_⟩
        simp only [List.append_assoc, List.cons_append]
        rw [← List.append_assoc p, hpq]
      · rw [if_neg ha] at h
        rcases List.mem_cons.mp h with rfl | h
        · exact ⟨[], c :: cs, by simp⟩
        · obtain ⟨p, q, hpq⟩ := ih [] w h
          simp only [List.reverse_nil, List.nil_append] at hpq
          refine ⟨acc.reverse ++ c :: p, q, ?_⟩
          simp only [List.append_assoc, List.cons_append]
          rw [← List.append_assoc p, hpq]
    · rw [if_neg hw] at h
      obtain ⟨p, q, hpq⟩ := ih (c :: acc) w h
      refine ⟨p, q, ?_⟩
      rw [hpq]
      simp

/-- A standalone word of a message is in particular a substring of it. -/
theorem standalone_imp_pyIn (w m : String) (h : standalone_word w m = true) :
    pyIn w m = true := by
  unfold standalone_word at h
  have hmem : w ∈ pySplitW m := by simpa using h
  unfold pySplitW at hmem
  obtain ⟨l, hl, rfl⟩ := List.mem_map.mp hmem
  obtain ⟨p, q, hpq⟩ := splitWsAux_infix m.data [] l hl
  simp only [List.reverse_nil, List.nil_append] at hpq
  exact decide_eq_true ⟨p, q, hpq⟩

/-- For a single-word keyword, the source test (both branches are substring
containment) agrees with the specified test (substring, or standalone
word). -/
theorem single_key_match (k m : String) (hk : pySplitW k = [k]) :
    kb_match k m = spec_kb_match k m := by
  unfold kb_match spec_kb_match
  rw [hk]
  simp only [List.any_cons, List.any_nil, Bool.or_false]
  cases hin : pyIn k m
  · simp only [Bool.false_or]
    cases hst : standalone_word k m
    · rfl
    · exact absurd (standalone_imp_pyIn k m hst) (by simp [hin])
  · simp

/-- Two pointwise-equal predicates find the same first element. -/
theorem find_congr {α : Type} (l : List α) (p q : α → Bool)
    (h : ∀ x ∈ l, p x = q x) : l.find? p = l.find? q := by
  induction l with
  | nil => rfl
  | cons a l ih =>
    have ha := h a (List.mem_cons_self a l)
    cases hqa : q a
    · rw [List.find?_cons_of_neg _ (by simp [ha, hqa]), List.find?_cons_of_neg _ (by simp [hqa])]
      exact ih (fun x hx => h x (List.mem_cons_of_mem a hx))
    · rw [List.find?_cons_of_pos _ (ha.trans hqa), List.find?_cons_of_pos _ hqa]

/-- The inner item loop of `_check_knowledge_base` returns the formatted
advice of the first matching key of the category. -/
theorem kb_scan_items_eq (m : String) (items : List (String × String)) :
    kb_scan_items m items =
      (items.find? (fun kv => kb_match kv.1 m)).map (fun kv => kb_format kv.1 kv.2) := by
  induction items with
  | nil => rfl
  | cons kv rest ih =>
    obtain ⟨k, r⟩ := kv
    unfold kb_scan_items
    cases hm : kb_match k m
    · rw [if_neg (by simp [hm]), ih, List.find?_cons_of_neg _ (by simp [hm])]
    · rw [if_pos (by simp [hm])]
      simp [List.find?_cons, hm]

/-- The nested category/item loops of `_check_knowledge_base` return the
formatted advice of the first matching key in flattened insertion order. -/
theorem kb_scan_eq (m : String) (cats : List (String × List (String × String))) :
    kb_scan m cats =
      ((cats.flatMap (fun c => c.2)).find? (fun kv => kb_match kv.1 m)).map
        (fun kv => kb_format kv.1 kv.2) := by
  induction cats with
  | nil => rfl
  | cons c rest ih =>
    obtain ⟨name, items⟩ := c
    unfold kb_scan
    rw [kb_scan_items_eq, List.flatMap_cons, List.find?_append]
    cases hfind : items.find? (fun kv => kb_match kv.1 m)
    · simpa [hfind] using ih
    · simp [hfind]

/-- Every keyword of the static table is a single word (so `key.split()`
returns the keyword itself). -/
theorem kb_keys_single : ∀ kv ∈ kb_flat, pySplitW kv.1 = [kv.1] := by decide

/-! ## Claim theorems for the chatbot -/

/-- C5: for every message and every keyword of the static table, the source
test matches exactly when the keyword is a substring of the message or some
individual word of the keyword is a standalone word of the message, and
`_check_knowledge_base` returns the advice of the first matching keyword in
insertion order. -/
theorem kb_match_matches_spec (message : String) :
    kb_flat.map (fun kv => kb_match kv.1 message) =
      kb_flat.map (fun kv => spec_kb_match kv.1 message) ∧
    check_knowledge_base message = spec_kb_lookup message := by
  have h1 : ∀ kv ∈ kb_flat, kb_match kv.1 message = spec_kb_match kv.1 message :=
    fun kv hv => single_key_match kv.1 message (kb_keys_single kv hv)
  refine ⟨List.map_congr_left h1, ?_⟩
  unfold check_knowledge_base spec_kb_lookup
  rw [kb_scan_eq]
  rw [show knowledge_base.flatMap (fun c => c.2) = kb_flat from rfl]
  rw [find_congr kb_flat _ _ h1]

/-- C4 counterexample: on the message "my corn has aphids" the knowledge base
returns the formatted corn advice — the keyword "corn" (category crop_care)
matches before "aphids" (category pest_control) in insertion order — and not
the verbatim aphid advice string. -/
theorem chatbot_corn_aphids_cex :
    get_response (some (fun _ _ => "external completion reply")) 0 "my corn has aphids" none =
      "**Corn Care Tips:**\n\nCorn requires well-drained soil, regular watering, and nitrogen-rich fertilizer. Plant after last frost." ∧
    get_response (some (fun _ _ => "external completion reply")) 0 "my corn has aphids" none ≠
      "Use ladybugs, neem oil, or insecticidal soap. Remove affected leaves." :=
  ⟨by decide, by decide⟩

/-- C4 as amended: for every configured client and fallback draw, the reply
to "my corn has aphids" is produced by the local knowledge base before any
external completion call, and it is the formatted corn advice (the first
matching keyword in insertion order), not the aphid advice. -/
theorem chatbot_corn_reply (client : Option (String → Option String → String))
    (pick : Fin 3) (ctx : Option String) :
    get_response client pick "my corn has aphids" ctx =
      "**Corn Care Tips:**\n\nCorn requires well-drained soil, regular watering, and nitrogen-rich fertilizer. Plant after last frost." := by
  have h : check_knowledge_base (lowerStr "my corn has aphids") =
      some "**Corn Care Tips:**\n\nCorn requires well-drained soil, regular watering, and nitrogen-rich fertilizer. Plant after last frost." := by
    decide
  unfold get_response
  rw [h]

/-! ## Helper lemmas about the alert store -/

/-- Updating the entry of a key and then finding that key finds the updated
entry. -/
theorem find_map_key (l : List (ℕ × Alert)) (i : ℕ) (f : Alert → Alert) :
    (l.map (fun kv => if kv.1 == i then (kv.1, f kv.2) else kv)).find?
        (fun kv => kv.1 == i) =
      (l.find? (fun kv => kv.1 == i)).map (fun kv => (kv.1, f kv.2)) := by
  induction l with
  | nil => rfl
  | cons kv l ih =>
    simp only [List.map_cons]
    by_cases hk : kv.1 = i
    · rw [if_pos (by simpa using hk), List.find?_cons, List.find?_cons]
      simp [hk]
    · have hb : (kv.1 == i) = false := by simpa using hk
      rw [if_neg (by simpa using hk), List.find?_cons, List.find?_cons]
      simp only [hb]
      exact ih

/-- Reading a key through `update_alert` returns the update applied to the
previously stored alert. -/
theorem get_alert_update (f : Alert → Alert) (i : ℕ) (s : AlertStore) :
    get_alert (update_alert f i s) i = (get_alert s i).map f := by
  unfold get_alert update_alert
  rw [find_map_key s.alerts i f]
  cases h : s.alerts.find? (fun kv => kv.1 == i) <;> simp

/-- Two updates of the same key compose. -/
theorem update_alert_comp (f g : Alert → Alert) (i : ℕ) (s : AlertStore) :
    update_alert f i (update_alert g i s) =
      update_alert (fun a => f (g a)) i s := by
  unfold update_alert
  simp only [List.map_map]
  congr 1
  apply List.map_congr_left
  intro kv _
  by_cases hk : kv.1 = i <;> simp [hk, Function.comp]

/-- Reading the key just pushed by `create_alert` returns the new record
(fresh keys never collide with stored ones in a well-formed store). -/
theorem get_alert_append_fresh (s : AlertStore) (hWF : store_wf s) (a : Alert) :
    get_alert { next_id := s.next_id + 1,
                alerts := s.alerts ++ [(s.next_id, a)] } s.next_id = some a := by
  unfold get_alert
  have h1 : s.alerts.find? (fun kv => kv.1 == s.next_id) = none :=
    List.find?_eq_none.mpr (fun kv hkv => by
      simpa using Nat.ne_of_lt (hWF kv hkv))
  rw [List.find?_append, h1]
  simp [List.find?_cons]

/-! ## Claim theorems for the alert store -/

/-- C7: an alert retrieved under the key returned by `create_alert` has
`read = false` and `resolved = false`; after `resolve_alert` it has
`read = true` and `resolved = true`; resolving a second time leaves the
read/resolved state unchanged, and `mark_alert_read` is idempotent on the
whole store. -/
theorem alert_store_lifecycle
    (s : AlertStore) (hWF : store_wf s) (now t1 t2 : ℕ)
    (title msg prio : String) (src note1 note2 : Option String)
    (id : ℕ) (s1 s2 s3 : AlertStore)
    (hc : create_alert now title msg prio src s = (id, s1))
    (hr1 : (resolve_alert t1 s1 id note1).1 = s2)
    (hr2 : (resolve_alert t2 s2 id note2).1 = s3) :
    ((get_alert s1 id).map (fun a => (a.read, a.resolved)) = some (false, false)) ∧
    ((get_alert s2 id).map (fun a => (a.read, a.resolved)) = some (true, true)) ∧
    ((get_alert s3 id).map (fun a => (a.read, a.resolved)) =
      (get_alert s2 id).map (fun a => (a.read, a.resolved))) ∧
    (∀ (st : AlertStore) (j : ℕ),
      (mark_alert_read (mark_alert_read st j).1 j).1 = (mark_alert_read st j).1) := by
  unfold create_alert at hc
  cases hc
  subst hr1
  subst hr2
  have h0 := get_alert_append_fresh s hWF
    { title := title, message := msg, priority := prio, source := src,
      timestamp := now, read := false, resolved := false,
      resolution_note := none, resolved_at := none }
  refine ⟨?_, ?_, ?_, ?_⟩
  · rw [h0]
    rfl
  · unfold resolve_alert
    rw [get_alert_update, h0]
    rfl
  · unfold resolve_alert
    rw [get_alert_update, get_alert_update, h0]
    rfl
  · intro st j
    unfold mark_alert_read
    rw [update_alert_comp]

/-- Witness for C7: create, resolve and re-resolve a concrete alert in an
initially empty store. -/
theorem alert_store_lifecycle_witness :
    ((get_alert (create_alert 5 "t" "m" "medium" none
        { next_id := 0, alerts := [] }).2 0).map (fun a => (a.read, a.resolved)) =
      some (false, false)) ∧
    ((get_alert (resolve_alert 6 (create_alert 5 "t" "m" "medium" none
        { next_id := 0, alerts := [] }).2 0 none).1 0).map
        (fun a => (a.read, a.resolved)) = some (true, true)) ∧
    ((mark_alert_read (mark_alert_read { next_id := 0, alerts := [] } 0).1 0).1 =
      (mark_alert_read { next_id := 0, alerts := [] } 0).1) := by
  have h := alert_store_lifecycle { next_id := 0, alerts := [] }
    (fun kv hkv => absurd hkv (List.not_mem_nil kv)) 5 6 7 "t" "m" "medium"
    none none none 0
    (create_alert 5 "t" "m" "medium" none { next_id := 0, alerts := [] }).2
    (resolve_alert 6 (create_alert 5 "t" "m" "medium" none
      { next_id := 0, alerts := [] }).2 0 none).1
    (resolve_alert 7 (resolve_alert 6 (create_alert 5 "t" "m" "medium" none
      { next_id := 0, alerts := [] }).2 0 none).1 0 none).1
    rfl rfl rfl
  exact ⟨h.1, h.2.1, h.2.2.2 { next_id := 0, alerts := [] } 0⟩

/-- Unfolded form of the `unread_only` query of `get_alerts`. -/
theorem get_alerts_unread (store : AlertStore) (limit : ℕ) :
    get_alerts store true limit =
      ((store.alerts.filter (fun kv => kv.2.read == false)).drop
        ((store.alerts.filter (fun kv => kv.2.read == false)).length - limit)).mergeSort
        (fun a b => decide (b.2.timestamp ≤ a.2.timestamp)) := rfl

/-- C8: an alert just created is listed by the `unread_only` query (when the
store held fewer unread alerts than the limit), and after `mark_alert_read`
on its key it is absent from every `unread_only` query result. -/
theorem alert_unread_roundtrip
    (s : AlertStore) (now : ℕ) (title msg prio : String) (src : Option String)
    (limit : ℕ) (id : ℕ) (s1 : AlertStore)
    (hcount : (s.alerts.filter (fun kv => kv.2.read == false)).length < limit)
    (hc : create_alert now title msg prio src s = (id, s1)) :
    id ∈ (get_alerts s1 true limit).map (fun kv => kv.1) ∧
    ∀ limit2, id ∉ (get_alerts (mark_alert_read s1 id).1 true limit2).map
      (fun kv => kv.1) := by
  unfold create_alert at hc
  cases hc
  constructor
  · rw [get_alerts_unread]
    have hfil : (s.alerts ++ [(s.next_id,
        ({ title := title, message := msg, priority := prio, source := src,
           timestamp := now, read := false, resolved := false,
           resolution_note := none, resolved_at := none } : Alert))]).filter
          (fun kv => kv.2.read == false)
        = s.alerts.filter (fun kv => kv.2.read == false) ++ [(s.next_id,
          ({ title := title, message := msg, priority := prio, source := src,
             timestamp := now, read := false, resolved := false,
             resolution_note := none, resolved_at := none } : Alert))] := by
      rw [List.filter_append]
      rfl
    rw [hfil, List.length_append]
    rw [Nat.sub_eq_zero_of_le (by simpa using hcount), List.drop_zero]
    exact List.mem_map.mpr
      ⟨_, List.mem_mergeSort.mpr (List.mem_append_right _ (List.mem_singleton.mpr rfl)),
        rfl⟩
  · intro limit2 hmem
    rw [get_alerts_unread] at hmem
    simp only [mark_alert_read, update_alert] at hmem
    obtain ⟨kv, hkv, hfst⟩ := List.mem_map.mp hmem
    have h2 := List.drop_subset _ _ (List.mem_mergeSort.mp hkv)
    have h4 := List.mem_filter.mp h2
    obtain ⟨kv0, hkv0, huk⟩ := List.mem_map.mp h4.1
    by_cases hk : kv0.1 = s.next_id
    · have hkv' : kv = (kv0.1, { kv0.2 with read := true }) := by
        rw [← huk, if_pos (by simpa using hk)]
      rw [hkv'] at h4
      simp at h4
    · have hkv' : kv = kv0 := by
        rw [← huk, if_neg (by simpa using hk)]
      rw [hkv'] at hfst
      exact hk hfst

/-- Witness for C8: one alert created in an empty store with limit 1. -/
theorem alert_unread_roundtrip_witness :
    ((({ next_id := 0, alerts := [] } : AlertStore).alerts.filter
        (fun kv => kv.2.read == false)).length < 1) ∧
    (0 ∈ (get_alerts (create_alert 5 "t" "m" "high" none
        { next_id := 0, alerts := [] }).2 true 1).map (fun kv => kv.1)) ∧
    (0 ∉ (get_alerts (mark_alert_read (create_alert 5 "t" "m" "high" none
        { next_id := 0, alerts := [] }).2 0).1 true 1).map (fun kv => kv.1)) := by
  have h := alert_unread_roundtrip { next_id := 0, alerts := [] } 5 "t" "m" "high"
    none 1 0 (create_alert 5 "t" "m" "high" none { next_id := 0, alerts := [] }).2
    (by decide) rfl
  exact ⟨by decide, h.1, h.2 1⟩

/-- The alert record created for a below-minimum reading. -/
def low_alert (now : ℕ) (sensor_id sensor_type : String) (value tmin : ℚ) : Alert :=
  { title := "Low " ++ pyTitle (pyReplace sensor_type '_' ' '),
    message := "Sensor " ++ sensor_id ++ ": " ++ sensor_type ++ " is " ++ toString value ++
      " (below minimum " ++ toString tmin ++ ")",
    priority := "high", source := some sensor_id, timestamp := now,
    read := false, resolved := false, resolution_note := none, resolved_at := none }

/-- The alert record created for an above-maximum reading. -/
def high_alert (now : ℕ) (sensor_id sensor_type : String) (value tmax : ℚ) : Alert :=
  { title := "High " ++ pyTitle (pyReplace sensor_type '_' ' '),
    message := "Sensor " ++ sensor_id ++ ": " ++ sensor_type ++ " is " ++ toString value ++
      " (above maximum " ++ toString tmax ++ ")",
    priority := "high", source := some sensor_id, timestamp := now,
    read := false, resolved := false, resolution_note := none, resolved_at := none }

/-! ## Claim theorems for the sensor threshold monitor -/

/-- C3 counterexample: a soil moisture reading of 19 (strictly below the
minimum 20) creates exactly one alert, but its title is the title-cased
"Low Soil Moisture" produced by
`f"Low {sensor_type.replace('_', ' ').title()}"`, not the literal
"Low soil_moisture". -/
theorem sensor_title_cex :
    ((check_sensor_alerts 0 "s1" "soil_moisture" 19
        { next_id := 0, alerts := [] }).alerts.map (fun kv => kv.2.title) =
      ["Low Soil Moisture"]) ∧
    "Low Soil Moisture" ≠ "Low soil_moisture" :=
  ⟨by decide, by decide⟩

/-- C3 as amended: readings of metrics outside the threshold table never
create an alert; in-range readings (boundaries included) create no alert; a
value strictly below the minimum appends exactly one unread, unresolved,
high-priority alert titled with `Low` and the title-cased metric name
(underscores replaced by spaces); a value strictly above the maximum does the
same with `High`. -/
theorem sensor_threshold_monitor
    (now : ℕ) (sensor_id sensor_type : String) (value : ℚ) (store : AlertStore) :
    (alert_thresholds.lookup sensor_type = none →
      check_sensor_alerts now sensor_id sensor_type value store = store) ∧
    (∀ tmin tmax : ℚ, alert_thresholds.lookup sensor_type = some (tmin, tmax) →
      (tmin ≤ value → value ≤ tmax →
        check_sensor_alerts now sensor_id sensor_type value store = store) ∧
      (value < tmin → ∃ a : Alert,
        (check_sensor_alerts now sensor_id sensor_type value store).alerts =
          store.alerts ++ [(store.next_id, a)] ∧
        a.title = "Low " ++ pyTitle (pyReplace sensor_type '_' ' ') ∧
        a.priority = "high" ∧ a.read = false ∧ a.resolved = false ∧
        a.source = some sensor_id) ∧
      (tmax < value → ∃ a : Alert,
        (check_sensor_alerts now sensor_id sensor_type value store).alerts =
          store.alerts ++ [(store.next_id, a)] ∧
        a.title = "High " ++ pyTitle (pyReplace sensor_type '_' ' ') ∧
        a.priority = "high" ∧ a.read = false ∧ a.resolved = false ∧
        a.source = some sensor_id)) := by
  constructor
  · intro hnone
    unfold check_sensor_alerts
    rw [hnone]
  · intro tmin tmax hsome
    have hminmax : tmin ≤ tmax := by
      unfold alert_thresholds at hsome
      simp only [List.lookup] at hsome
      split at hsome
      · simp only [Option.some.injEq, Prod.mk.injEq] at hsome
        rw [← hsome.1, ← hsome.2]
        norm_num
      · split at hsome
        · simp only [Option.some.injEq, Prod.mk.injEq] at hsome
          rw [← hsome.1, ← hsome.2]
          norm_num
        · split at hsome
          · simp only [Option.some.injEq, Prod.mk.injEq] at hsome
            rw [← hsome.1, ← hsome.2]
            norm_num
          · split at hsome
            · simp only [Option.some.injEq, Prod.mk.injEq] at hsome
              rw [← hsome.1, ← hsome.2]
              norm_num
            · cases hsome
    have hstep : check_sensor_alerts now sensor_id sensor_type value store =
        (if value < tmin then
          (create_alert now ("Low " ++ pyTitle (pyReplace sensor_type '_' ' '))
            ("Sensor " ++ sensor_id ++ ": " ++ sensor_type ++ " is " ++ toString value ++
              " (below minimum " ++ toString tmin ++ ")")
            "high" (some sensor_id) store).2
        else if value > tmax then
          (create_alert now ("High " ++ pyTitle (pyReplace sensor_type '_' ' '))
            ("Sensor " ++ sensor_id ++ ": " ++ sensor_type ++ " is " ++ toString value ++
              " (above maximum " ++ toString tmax ++ ")")
            "high" (some sensor_id) store).2
        else store) := by
      unfold check_sensor_alerts
      split
      · rename_i heq
        rw [hsome] at heq
        exact Option.noConfusion heq
      · rename_i a0 b0 heq
        rw [hsome] at heq
        simp only [Option.some.injEq, Prod.mk.injEq] at heq
        rw [heq.1, heq.2]
    refine ⟨?_, ?_, ?_⟩
    · intro h1 h2
      rw [hstep, if_neg (not_lt.mpr h1), if_neg (not_lt.mpr h2)]
    · intro hlow
      refine ⟨low_alert now sensor_id sensor_type value tmin, ?_, rfl, rfl, rfl, rfl, rfl⟩
      rw [hstep, if_pos hlow]
      rfl
    · intro hhigh
      refine ⟨high_alert now sensor_id sensor_type value tmax, ?_, rfl, rfl, rfl, rfl, rfl⟩
      rw [hstep, if_neg (not_lt.mpr (le_trans hminmax (le_of_lt hhigh))),
        if_pos hhigh]
      rfl

/-- Witness for the amended C3: soil moisture 19 in an empty store yields one
high-priority alert with the title-cased title. -/
theorem sensor_threshold_monitor_witness :
    (alert_thresholds.lookup "soil_moisture" = some (20, 80)) ∧
    ((19 : ℚ) < 20) ∧
    ((check_sensor_alerts 0 "s1" "soil_moisture" 19
        { next_id := 0, alerts := [] }).alerts.map
        (fun kv => (kv.2.title, kv.2.priority)) =
      [("Low " ++ pyTitle (pyReplace "soil_moisture" '_' ' '), "high")]) := by
  refine ⟨by decide, by decide, ?_⟩
  obtain ⟨a, ha, ht, hp, _, _, _⟩ :=
    ((sensor_threshold_monitor 0 "s1" "soil_moisture" 19
        { next_id := 0, alerts := [] }).2 20 80 (by decide)).2.1 (by decide)
  rw [ha]
  simp [ht, hp]

end Ibali
